import Mathlib

/-!
Verification of the LaddooHunt probing engine (`LaddooHunt.py`).

The Python program is shallowly embedded: pure string manipulation becomes
Lean functions on `String`/`List Char`; the network is an explicit
environment (`NetEnv`) holding the outcome of the phase-1 status request and
the phase-2 redirect-following request, with Python exceptions represented as
`Except.error` values that the embedded code handles exactly where the Python
`try`/`except` blocks do; the JSON checkpoint file is a typed record
(`CheckpointJson`), with a missing or unparsable file as its own
constructors.  Functions keep the Python names where possible.  Instrumented
outputs (`secondRequest`, `errorLogged`) record which observable side effects
a call performed; they sit next to the translated return value and do not
alter it.
-/

/-- Python substring test `p in s`, expressed on lists of characters. -/
def isSubList (p : List Char) : List Char → Bool
  | [] => p.isEmpty
  | c :: rest => p.isPrefixOf (c :: rest) || isSubList p rest

/-- Python `p in s` for strings. -/
def substrB (p s : String) : Bool := isSubList p.data s.data

/-- Python `s.lower()` (ASCII case folding, as used on the URLs here). -/
def strLower (s : String) : String := ⟨s.data.map Char.toLower⟩

/-- Value of a hexadecimal digit, `none` for a non-hex character. -/
def hexVal : Char → Option Nat
  | c =>
    if '0' ≤ c ∧ c ≤ '9' then some (c.toNat - '0'.toNat)
    else if 'a' ≤ c ∧ c ≤ 'f' then some (c.toNat - 'a'.toNat + 10)
    else if 'A' ≤ c ∧ c ≤ 'F' then some (c.toNat - 'A'.toNat + 10)
    else none

/-- One pass of percent-decoding, modelling `urllib.parse.unquote`: a `%`
followed by two hex digits becomes the decoded character, an invalid escape
is kept verbatim (multi-byte UTF-8 sequences are decoded bytewise; the
patterns searched for are ASCII, where this coincides with `unquote`). -/
def unquoteList : List Char → List Char
  | '%' :: h1 :: h2 :: rest =>
    match hexVal h1, hexVal h2 with
    | some a, some b => Char.ofNat (16 * a + b) :: unquoteList rest
    | _, _ => '%' :: unquoteList (h1 :: h2 :: rest)
  | c :: rest => c :: unquoteList rest
  | [] => []

/-- `urllib.parse.unquote` on a string, applied once. -/
def unquoteStr (s : String) : String := ⟨unquoteList s.data⟩

/-- `LADDOO_PATTERNS` (LaddooHunt.py lines 23-27): the required substrings. -/
def LADDOO_PATTERNS : List String :=
  ["iplladdoo2025", "socialTitle=Psst", "Laddoo+for+you"]

/-- `LADDOO_TYPES` (LaddooHunt.py lines 29-41): the ordered category labels. -/
def LADDOO_TYPES : List String :=
  ["Steady", "Sparky", "Zen", "Elastic", "Boom", "Dash",
   "Bazooka", "Dizzy", "Sunny", "Ninja", "Wally"]

/-- `ENABLE_TELEGRAM` (LaddooHunt.py line 43). -/
def ENABLE_TELEGRAM : Bool := true

/-- The probed URL `https://gpay.app.goo.gl/{code}` built from a candidate. -/
def targetUrl (code : String) : String := "https://gpay.app.goo.gl/" ++ code

/-- The `for laddoo_type in LADDOO_TYPES` loop of `extract_laddoo_type`
(LaddooHunt.py lines 168-171), generalized over the remaining labels. -/
def extractLoop (url : String) : List String → String
  | [] => "Other"
  | t :: rest =>
    if substrB (strLower t) (strLower url) then t else extractLoop url rest

/-- `extract_laddoo_type` (LaddooHunt.py lines 166-171). -/
def extract_laddoo_type (url : String) : String := extractLoop url LADDOO_TYPES

/-- Outcome of the pattern loop of `check_url_curl` / `check_url_requests`:
the `all_patterns_found` flag and the `found_patterns` / `missing_patterns`
lists it accumulates. -/
structure ScanResult where
  all_patterns_found : Bool
  found_patterns : List String
  missing_patterns : List String
deriving DecidableEq

/-- The `for pattern in LADDOO_PATTERNS` loop (LaddooHunt.py lines 242-256 and
334-348), generalized over the remaining patterns: a pattern found in the raw
or the decoded URL goes to `found_patterns`, otherwise `all_patterns_found`
is cleared and the pattern goes to `missing_patterns`, in pattern order. -/
def patternLoop (final_url decoded_url : String) : List String → ScanResult
  | [] => ⟨true, [], []⟩
  | p :: rest =>
    let r := patternLoop final_url decoded_url rest
    if substrB p final_url || substrB p decoded_url then
      ⟨r.all_patterns_found, p :: r.found_patterns, r.missing_patterns⟩
    else
      ⟨false, r.found_patterns, p :: r.missing_patterns⟩

/-- The full pattern check both check functions run on the resolved URL:
`decoded_url = unquote(final_url)`, then the loop over `LADDOO_PATTERNS`. -/
def patternScan (final_url : String) : ScanResult :=
  patternLoop final_url (unquoteStr final_url) LADDOO_PATTERNS

/-- The network's behavior for one candidate: the status returned by the
phase-1 no-redirect request (`Except.error` = the request raised), and the
final resolved URL of the phase-2 redirect-following request. -/
structure NetEnv where
  headStatus : Except String Int
  finalUrl : Except String String

/-- Result of `is_valid_url` plus whether its `except` branch logged an
error. -/
structure ValidCheck where
  valid : Bool
  errorLogged : Bool
deriving DecidableEq

/-- `is_valid_url` (LaddooHunt.py lines 173-200): status in [200,400) means
valid; any exception (timeout, connection failure, unparsable status) is
caught, logged, and yields `False`. -/
def is_valid_url (env : NetEnv) : ValidCheck :=
  match env.headStatus with
  | .ok status_code =>
    ⟨decide (200 ≤ status_code) && decide (status_code < 400), false⟩
  | .error _ => ⟨false, true⟩

/-- A value returned by `check_url_curl` / `check_url_requests`: either the
5-tuple of the non-match branches or the 6-tuple of the confirmed-match
branch. -/
inductive CheckRet where
  | five (valid : Bool) (code : String) (third fourth : Option String)
      (fifth : Option (List String))
  | six (valid : Bool) (code url final_url : String)
      (found_patterns : List String) (laddoo_type : String)
deriving DecidableEq

/-- Number of components of the returned tuple. -/
def CheckRet.arity : CheckRet → Nat
  | .five _ _ _ _ _ => 5
  | .six _ _ _ _ _ _ => 6

/-- First component (`valid`) of the returned tuple. -/
def CheckRet.validB : CheckRet → Bool
  | .five v _ _ _ _ => v
  | .six v _ _ _ _ _ => v

/-- One call to a check function: the returned Python value (`none` models
an implicit `return None` fall-through), whether the phase-2 request was
issued, and whether a transport error was logged. -/
structure CheckTrace where
  ret : Option CheckRet
  secondRequest : Bool
  errorLogged : Bool
deriving DecidableEq

/-- `check_url_curl` (LaddooHunt.py lines 206-298): phase-1 validity gate,
then the phase-2 `curl -Ls` request for the effective URL, the pattern scan
on raw and decoded forms, and on a confirmed match the direct write to
`OUTPUT_FILE` and Telegram notification before returning the 6-tuple.  Any
exception is caught and returned as the `Error:` 5-tuple. -/
def check_url_curl (code : String) (env : NetEnv) : CheckTrace :=
  let url := targetUrl code
  let v := is_valid_url env
  if !v.valid then
    ⟨some (.five false code none none none), false, v.errorLogged⟩
  else
    match env.finalUrl with
    | .error e =>
      ⟨some (.five false code (some ("Error: " ++ e)) none none), true, true⟩
    | .ok final_url =>
      let r := patternScan final_url
      if r.all_patterns_found then
        let laddoo_type := extract_laddoo_type (unquoteStr final_url)
        ⟨some (.six true code url final_url r.found_patterns laddoo_type),
          true, v.errorLogged⟩
      else
        ⟨some (.five false code none (some final_url) none),
          true, v.errorLogged⟩

/-- `check_url_requests` (LaddooHunt.py lines 301-393): same structure as
`check_url_curl`, except that the confirmed-match block sits behind the
redundant inner test `if all_patterns_found or len(found_patterns) > 0`,
whose (unreachable) false branch falls off the function, returning `None`. -/
def check_url_requests (code : String) (env : NetEnv) : CheckTrace :=
  let url := targetUrl code
  let v := is_valid_url env
  if !v.valid then
    ⟨some (.five false code none none none), false, v.errorLogged⟩
  else
    match env.finalUrl with
    | .error e =>
      ⟨some (.five false code (some ("Error: " ++ e)) none none), true, true⟩
    | .ok final_url =>
      let r := patternScan final_url
      if r.all_patterns_found then
        if r.all_patterns_found || decide (0 < r.found_patterns.length) then
          let laddoo_type := extract_laddoo_type (unquoteStr final_url)
          ⟨some (.six true code url final_url r.found_patterns laddoo_type),
            true, v.errorLogged⟩
        else
          ⟨none, true, v.errorLogged⟩
      else
        ⟨some (.five false code none (some final_url) none),
          true, v.errorLogged⟩

/-- What one `worker` iteration (LaddooHunt.py lines 397-422) does with the
value returned by the check function. -/
inductive WorkerOutcome where
  | enqueued (url : String)
  | notEnqueued
  | errorCaught
deriving DecidableEq

/-- The tail of one `worker` iteration after `check_func(code)` returns: the
5-name unpacking `valid, code, redirect_url, found_patterns,
missing_patterns = check_func(code)` raises `ValueError` on a 6-tuple and
`TypeError` on `None`, both swallowed by the worker's generic `except`
(which logs and continues); on a 5-tuple, `valid` decides whether the URL is
put on the result queue. -/
def worker_step (code : String) (t : CheckTrace) : WorkerOutcome :=
  match t.ret with
  | none => .errorCaught
  | some (.six _ _ _ _ _ _) => .errorCaught
  | some (.five valid _ _ _ _) =>
    if valid then .enqueued (targetUrl code) else .notEnqueued

/-- `UrlTracker.mark_processed` (LaddooHunt.py lines 101-106): test-and-insert
on the tracker's set, returning whether the key was new together with the new
set state. -/
def mark_processed (processed_urls : Finset String) (url : String) :
    Bool × Finset String :=
  if url ∈ processed_urls then (false, processed_urls)
  else (true, insert url processed_urls)

/-- The JSON object stored in `checkpoint.json`: each key is present or
absent.  `save_checkpoint` writes `codes`, `counter` and `timestamp`;
`load_checkpoint` also accepts the old-format keys `processed_codes` and
`processed_count`. -/
structure CheckpointJson where
  codes : Option (List String)
  processed_codes : Option (List String)
  counter : Option Nat
  processed_count : Option Nat
  timestamp : Option Nat
deriving DecidableEq

/-- State of the checkpoint file on disk: absent, present but raising during
parse (corrupt JSON, or fields of the wrong type), or a parsed object. -/
inductive CheckpointFile where
  | missing
  | corrupt
  | valid (data : CheckpointJson)
deriving DecidableEq

/-- `save_checkpoint` (LaddooHunt.py lines 530-556), viewed through the file
it leaves behind: the JSON object `{"codes": list(processed), "counter":
counter_value, "timestamp": ...}`.  `processed` is the enumeration
`list(processed)` of the in-memory set. -/
def save_checkpoint (processed : List String) (counter_value : Nat)
    (ts : Nat) : CheckpointFile :=
  .valid ⟨some processed, none, some counter_value, none, some ts⟩

/-- Python `a or b` on two lists: `a` unless it is empty (falsy). -/
def pyOrList (a b : List String) : List String := if a.isEmpty then b else a

/-- Python `a or b` on two non-negative integers: `a` unless it is 0. -/
def pyOrNat (a b : Nat) : Nat := if a = 0 then b else a

/-- What `load_checkpoint` returns, plus whether its `except` branch logged
an error. -/
structure LoadResult where
  processed_codes : Finset String
  processed_count : Nat
  errorLogged : Bool
deriving DecidableEq

/-- `load_checkpoint` (LaddooHunt.py lines 559-580): a missing file gives
`(set(), 0)` silently; any exception while reading or parsing is caught and
logged, also giving `(set(), 0)`; otherwise the codes are
`set(data.get("codes", []) or data.get("processed_codes", []))` and the
counter `data.get("counter", 0) or data.get("processed_count", 0)`. -/
def load_checkpoint : CheckpointFile → LoadResult
  | .missing => ⟨∅, 0, false⟩
  | .corrupt => ⟨∅, 0, true⟩
  | .valid d =>
    ⟨(pyOrList (d.codes.getD []) (d.processed_codes.getD [])).toFinset,
      pyOrNat (d.counter.getD 0) (d.processed_count.getD 0),
      false⟩

/-- The checkpoint rehydration step of `main` (LaddooHunt.py lines 721-722):
`processed_codes, last_count = load_checkpoint()` followed by
`counter = Counter(len(processed_codes))` — the seen-set and the initial
value of the in-memory counter. -/
def main_startup (f : CheckpointFile) : Finset String × Nat :=
  let r := load_checkpoint f
  (r.processed_codes, r.processed_codes.card)

/-- One run of `main`'s candidate flow: the seen-set after the
resume-vs-fresh choice, the code typed at the optional test-a-specific-code
prompt (`test_single_code` does not add it to `processed_codes`), and the
codes `generate_random_code` produced before shutdown, in order. -/
structure RunInput where
  resumedSeen : Finset String
  testedCode : Option String
  generated : List String

/-- The generation loop of `main` (LaddooHunt.py lines 793-799): a generated
code already in `processed_codes` is skipped, otherwise it is enqueued and
added to `processed_codes`.  Returns the codes handed to the work queue, in
order. -/
def enqueueLoop (processed : Finset String) : List String → List String
  | [] => []
  | c :: rest =>
    if c ∈ processed then enqueueLoop processed rest
    else c :: enqueueLoop (insert c processed) rest

/-- Whether checking `code` against the network behavior `env` confirms a
match, with the backend chosen as in `worker` by `use_curl`. -/
def confirmsB (env : String → NetEnv) (use_curl : Bool) (code : String) :
    Bool :=
  match ((if use_curl then check_url_curl else check_url_requests)
      code (env code)).ret with
  | some r => r.validB
  | none => false

/-- The match keys written to `OUTPUT_FILE` during a run, in order: one write
per confirmed check of the tested code (inside `test_single_code`'s call to
the check function) and one per confirmed check of an enqueued code (each
queue item is checked by exactly one worker).  The `ResultWriter` path
contributes nothing: `main` never constructs a `ResultWriter`, and
`worker_step` never reaches its enqueue branch on a confirmed match. -/
def runWrites (r : RunInput) (env : String → NetEnv) (use_curl : Bool) :
    List String :=
  (match r.testedCode with
    | some c => if confirmsB env use_curl c then [targetUrl c] else []
    | none => []) ++
  ((enqueueLoop r.resumedSeen r.generated).filter
    (confirmsB env use_curl)).map targetUrl

/-- The match keys handed to `telegram_bot.send_valid_link` during a run:
the check functions notify exactly where they write, guarded by
`ENABLE_TELEGRAM`. -/
def runNotifies (r : RunInput) (env : String → NetEnv) (use_curl : Bool) :
    List String :=
  if ENABLE_TELEGRAM then runWrites r env use_curl else []

/-- A pattern counts as present when it occurs in the raw resolved URL or in
its once-decoded form; the predicate the spec states for the classifier. -/
def foundEither (final_url p : String) : Bool :=
  substrB p final_url || substrB p (unquoteStr final_url)

/-- A transport error during probing: the phase-1 request raised, or phase 1
passed and the phase-2 request raised. -/
def transportError (env : NetEnv) : Prop :=
  (∃ e, env.headStatus = .error e) ∨
  ((is_valid_url env).valid = true ∧ ∃ e, env.finalUrl = .error e)

/-- The loop flag equals the conjunction of per-pattern raw-or-decoded hits. -/
theorem patternLoop_all (u d : String) (ps : List String) :
    (patternLoop u d ps).all_patterns_found
      = ps.all (fun p => substrB p u || substrB p d) := by
  induction ps with
  | nil => rfl
  | cons p rest ih =>
    simp only [patternLoop, List.all_cons]
    split
    · next h => simp [h, ih]
    · next h =>
      simp only [Bool.not_eq_true] at h
      simp [h]

/-- The loop's missing list keeps exactly the patterns found in neither form. -/
theorem patternLoop_missing (u d : String) (ps : List String) :
    (patternLoop u d ps).missing_patterns
      = ps.filter (fun p => !(substrB p u || substrB p d)) := by
  induction ps with
  | nil => rfl
  | cons p rest ih =>
    simp only [patternLoop, List.filter_cons]
    split
    · next h => simp [h, ih]
    · next h =>
      simp only [Bool.not_eq_true] at h
      simp [h, ih]

/-- The label loop returns the first matching label, with default fallback. -/
theorem extractLoop_eq (url : String) (ts : List String) :
    extractLoop url ts
      = (ts.find? (fun t => substrB (strLower t) (strLower url))).getD "Other" := by
  induction ts with
  | nil => rfl
  | cons t rest ih =>
    by_cases h : substrB (strLower t) (strLower url) = true
    · simp [extractLoop, h, List.find?_cons_of_pos]
    · simp only [Bool.not_eq_true] at h
      simp [extractLoop, h, List.find?_cons_of_neg, ih]

/-- The generation loop enqueues no duplicates and nothing already seen. -/
theorem enqueueLoop_spec (gen : List String) :
    ∀ s : Finset String,
      (enqueueLoop s gen).Nodup ∧ ∀ c ∈ enqueueLoop s gen, c ∉ s := by
  induction gen with
  | nil =>
    intro s
    exact ⟨List.nodup_nil, by simp [enqueueLoop]⟩
  | cons c rest ih =>
    intro s
    by_cases hc : c ∈ s
    · simpa only [enqueueLoop, if_pos hc] using ih s
    · simp only [enqueueLoop, if_neg hc]
      obtain ⟨hnd, hnin⟩ := ih (insert c s)
      refine ⟨List.nodup_cons.mpr ⟨fun hmem => ?_, hnd⟩, ?_⟩
      · exact hnin c hmem (Finset.mem_insert_self c s)
      · intro x hx
        rcases List.mem_cons.mp hx with rfl | hx2
        · exact hc
        · exact fun hxs => hnin x hx2 (Finset.mem_insert_of_mem hxs)

/-- Distinct candidates give distinct probed URLs. -/
theorem targetUrl_injective : Function.Injective targetUrl := by
  intro a b h
  have hd := congrArg String.data h
  rw [targetUrl, targetUrl, String.data_append, String.data_append] at hd
  exact String.ext (List.append_cancel_left hd)

/-- Unpacking a 6-tuple into five names raises, caught by the worker. -/
theorem worker_step_six (code : String) (t : CheckTrace)
    (v : Bool) (c u f : String) (fp : List String) (lt : String)
    (h : t.ret = some (.six v c u f fp lt)) :
    worker_step code t = .errorCaught := by
  unfold worker_step
  rw [h]

/-- Unpacking a 5-tuple succeeds; `valid` decides the enqueue. -/
theorem worker_step_five (code : String) (t : CheckTrace)
    (v : Bool) (c : String) (x y : Option String) (z : Option (List String))
    (h : t.ret = some (.five v c x y z)) :
    worker_step code t =
      if v then .enqueued (targetUrl code) else .notEnqueued := by
  unfold worker_step
  rw [h]

/-- Loading a just-saved checkpoint recovers the saved codes as a set. -/
theorem load_save_codes (l : List String) (n ts : Nat) :
    (load_checkpoint (save_checkpoint l n ts)).processed_codes = l.toFinset := by
  cases l with
  | nil => rfl
  | cons a l => rfl

/-- Loading a just-saved checkpoint recovers the saved counter. -/
theorem load_save_count (l : List String) (n ts : Nat) :
    (load_checkpoint (save_checkpoint l n ts)).processed_count = n := by
  by_cases hn : n = 0
  · subst hn; rfl
  · simp [load_checkpoint, save_checkpoint, pyOrNat, hn]

/-- C1: for every resolved URL, `all_patterns_found` is true iff every
pattern in `LADDOO_PATTERNS` occurs as a substring of the raw final URL or
of its once-percent-decoded form; a pattern occurring in neither forces
`all_patterns_found = false` and appears in `missing_patterns`. -/
theorem allPatternsFound_iff (final_url : String) :
    ((patternScan final_url).all_patterns_found = true ↔
      ∀ p ∈ LADDOO_PATTERNS, foundEither final_url p = true) ∧
    ∀ p ∈ LADDOO_PATTERNS, foundEither final_url p = false →
      (patternScan final_url).all_patterns_found = false ∧
      p ∈ (patternScan final_url).missing_patterns := by
  constructor
  · rw [patternScan, patternLoop_all, List.all_eq_true]
    exact Iff.rfl
  · intro p hp hne
    constructor
    · rw [patternScan, patternLoop_all]
      apply List.all_eq_false.mpr
      exact ⟨p, hp, by simpa [foundEither] using hne⟩
    · rw [patternScan, patternLoop_missing, List.mem_filter]
      exact ⟨hp, by simpa [foundEither] using hne⟩

/-- Witness for C1: on a URL holding only the first pattern, the second
pattern is missing, the flag is false, and the pattern is in the missing
list. -/
theorem allPatternsFound_iff_witness :
    foundEither "iplladdoo2025" "socialTitle=Psst" = false ∧
    "socialTitle=Psst" ∈ LADDOO_PATTERNS ∧
    (patternScan "iplladdoo2025").all_patterns_found = false ∧
    "socialTitle=Psst" ∈ (patternScan "iplladdoo2025").missing_patterns :=
  ⟨by decide, by decide,
    (allPatternsFound_iff "iplladdoo2025").2 "socialTitle=Psst"
      (by decide) (by decide)⟩

/-- C2: saving any enumeration of a set `S` together with a counter `n` and
loading the result back yields a set equal to `S` and the counter `n`,
including the empty set and `n = 0`. -/
theorem checkpoint_roundtrip (S : Finset String) (l : List String) (n ts : Nat)
    (hl : l.toFinset = S) :
    (load_checkpoint (save_checkpoint l n ts)).processed_codes = S ∧
    (load_checkpoint (save_checkpoint l n ts)).processed_count = n := by
  subst hl
  exact ⟨load_save_codes l n ts, load_save_count l n ts⟩

/-- Witness for C2 at a concrete two-element set and counter 7. -/
theorem checkpoint_roundtrip_witness :
    (["ab", "cd"] : List String).toFinset = ({"ab", "cd"} : Finset String) ∧
    (load_checkpoint (save_checkpoint ["ab", "cd"] 7 3)).processed_codes
      = {"ab", "cd"} ∧
    (load_checkpoint (save_checkpoint ["ab", "cd"] 7 3)).processed_count = 7 :=
  ⟨by decide, checkpoint_roundtrip {"ab", "cd"} ["ab", "cd"] 7 3 (by decide)⟩

/-- C5: the first `mark_processed` call with a fresh key returns `true` and
inserts the key; the immediate second call, and every later call while the
key stays in the set, returns `false` and leaves the set unchanged. -/
theorem mark_processed_spec (s : Finset String) (k : String) (h : k ∉ s) :
    mark_processed s k = (true, insert k s) ∧
    mark_processed (mark_processed s k).2 k = (false, insert k s) ∧
    ∀ t : Finset String, k ∈ t → mark_processed t k = (false, t) := by
  have h1 : mark_processed s k = (true, insert k s) := by
    rw [mark_processed, if_neg h]
  refine ⟨h1, ?_, ?_⟩
  · rw [h1, mark_processed, if_pos (Finset.mem_insert_self k s)]
  · intro t ht
    rw [mark_processed, if_pos ht]

/-- Witness for C5 on the empty tracker and the key "k". -/
theorem mark_processed_spec_witness :
    ("k" ∉ (∅ : Finset String)) ∧
    mark_processed ∅ "k" = (true, insert "k" ∅) ∧
    mark_processed (mark_processed ∅ "k").2 "k" = (false, insert "k" ∅) ∧
    mark_processed (insert "k" ∅) "k" = (false, insert "k" ∅) := by
  have h := mark_processed_spec ∅ "k" (by decide)
  exact ⟨by decide, h.1, h.2.1, h.2.2 (insert "k" ∅) (Finset.mem_insert_self "k" ∅)⟩

/-- C6: `load_checkpoint` returns the empty set and counter zero on a
missing file, and on a corrupt or unparsable file it logs the error and
also returns the empty set and counter zero instead of raising. -/
theorem load_checkpoint_missing_corrupt :
    load_checkpoint .missing = ⟨∅, 0, false⟩ ∧
    load_checkpoint .corrupt = ⟨∅, 0, true⟩ :=
  ⟨rfl, rfl⟩

/-- C7: when the phase-1 status check yields a code outside [200,400), both
backends return the invalid 5-tuple at once, with no phase-2 request and no
error logged. -/
theorem invalid_status_no_second_request (code : String) (env : NetEnv)
    (s : Int) (hs : env.headStatus = .ok s) (hout : s < 200 ∨ 400 ≤ s) :
    check_url_curl code env =
      ⟨some (.five false code none none none), false, false⟩ ∧
    check_url_requests code env =
      ⟨some (.five false code none none none), false, false⟩ := by
  have hv : is_valid_url env = ⟨false, false⟩ := by
    unfold is_valid_url
    rw [hs]
    rcases hout with h | h
    · have h2 : ¬(200 ≤ s) := by omega
      simp [h2]
    · have h2 : ¬(s < 400) := by omega
      simp [h2]
  constructor
  · simp [check_url_curl, hv]
  · simp [check_url_requests, hv]

/-- Witness for C7 at status 404. -/
theorem invalid_status_no_second_request_witness :
    (⟨.ok 404, .ok "x"⟩ : NetEnv).headStatus = .ok 404 ∧
    ((404 : Int) < 200 ∨ 400 ≤ (404 : Int)) ∧
    check_url_curl "abc" ⟨.ok 404, .ok "x"⟩ =
      ⟨some (.five false "abc" none none none), false, false⟩ ∧
    check_url_requests "abc" ⟨.ok 404, .ok "x"⟩ =
      ⟨some (.five false "abc" none none none), false, false⟩ :=
  ⟨rfl, by decide,
    invalid_status_no_second_request "abc" ⟨.ok 404, .ok "x"⟩ 404 rfl (by decide)⟩

/-- C8: any transport error during probing (phase-1 raise, or phase-2 raise
after a passing status check) makes both backends return a 5-tuple with
`valid = false` after logging the error, and the worker neither dies nor
enqueues: it just moves on. -/
theorem transport_error_recovered (code : String) (env : NetEnv)
    (h : transportError env) :
    (∃ r, (check_url_curl code env).ret = some r ∧
      r.validB = false ∧ r.arity = 5) ∧
    (check_url_curl code env).errorLogged = true ∧
    worker_step code (check_url_curl code env) = .notEnqueued ∧
    (∃ r, (check_url_requests code env).ret = some r ∧
      r.validB = false ∧ r.arity = 5) ∧
    (check_url_requests code env).errorLogged = true ∧
    worker_step code (check_url_requests code env) = .notEnqueued := by
  rcases h with ⟨e, he⟩ | ⟨hvalid, e, he⟩
  · have hv : is_valid_url env = ⟨false, true⟩ := by
      unfold is_valid_url
      rw [he]
    have hc : check_url_curl code env =
        ⟨some (.five false code none none none), false, true⟩ := by
      simp [check_url_curl, hv]
    have hr : check_url_requests code env =
        ⟨some (.five false code none none none), false, true⟩ := by
      simp [check_url_requests, hv]
    refine ⟨⟨.five false code none none none, by rw [hc], rfl, rfl⟩,
      by rw [hc], ?_,
      ⟨.five false code none none none, by rw [hr], rfl, rfl⟩,
      by rw [hr], ?_⟩
    · rw [worker_step_five code _ false code none none none (by rw [hc])]
      rfl
    · rw [worker_step_five code _ false code none none none (by rw [hr])]
      rfl
  · have hv : is_valid_url env = ⟨true, false⟩ := by
      cases hh : env.headStatus with
      | error e2 =>
        exfalso
        have hf : (is_valid_url env).valid = false := by
          simp [is_valid_url, hh]
        rw [hvalid] at hf
        simp at hf
      | ok s =>
        have hb := hvalid
        simp only [is_valid_url, hh] at hb ⊢
        simp [hb]
    have hc : check_url_curl code env =
        ⟨some (.five false code (some ("Error: " ++ e)) none none),
          true, true⟩ := by
      simp [check_url_curl, hv, he]
    have hr : check_url_requests code env =
        ⟨some (.five false code (some ("Error: " ++ e)) none none),
          true, true⟩ := by
      simp [check_url_requests, hv, he]
    refine ⟨⟨.five false code (some ("Error: " ++ e)) none none,
      by rw [hc], rfl, rfl⟩, by rw [hc], ?_,
      ⟨.five false code (some ("Error: " ++ e)) none none,
      by rw [hr], rfl, rfl⟩, by rw [hr], ?_⟩
    · rw [worker_step_five code _ false code (some ("Error: " ++ e)) none none
        (by rw [hc])]
      rfl
    · rw [worker_step_five code _ false code (some ("Error: " ++ e)) none none
        (by rw [hr])]
      rfl

/-- Witness for C8 with a phase-1 timeout. -/
theorem transport_error_recovered_witness :
    transportError ⟨.error "timeout", .ok "x"⟩ ∧
    ((∃ r, (check_url_curl "abc" ⟨.error "timeout", .ok "x"⟩).ret = some r ∧
      r.validB = false ∧ r.arity = 5) ∧
    (check_url_curl "abc" ⟨.error "timeout", .ok "x"⟩).errorLogged = true ∧
    worker_step "abc" (check_url_curl "abc" ⟨.error "timeout", .ok "x"⟩)
      = .notEnqueued ∧
    (∃ r, (check_url_requests "abc" ⟨.error "timeout", .ok "x"⟩).ret = some r ∧
      r.validB = false ∧ r.arity = 5) ∧
    (check_url_requests "abc" ⟨.error "timeout", .ok "x"⟩).errorLogged = true ∧
    worker_step "abc" (check_url_requests "abc" ⟨.error "timeout", .ok "x"⟩)
      = .notEnqueued) :=
  ⟨Or.inl ⟨"timeout", rfl⟩,
    transport_error_recovered "abc" ⟨.error "timeout", .ok "x"⟩
      (Or.inl ⟨"timeout", rfl⟩)⟩

/-- C4: whenever either check function confirms a match, the returned tuple
has six components, so the worker's 5-name unpacking raises a `ValueError`
that its generic handler swallows, and the success branch enqueueing the
match URL never runs. -/
theorem confirmed_match_never_reaches_queue (code : String) (env : NetEnv) :
    (∀ r, (check_url_curl code env).ret = some r → r.validB = true →
      r.arity = 6 ∧
      worker_step code (check_url_curl code env) = .errorCaught ∧
      ∀ u, worker_step code (check_url_curl code env) ≠ .enqueued u) ∧
    (∀ r, (check_url_requests code env).ret = some r → r.validB = true →
      r.arity = 6 ∧
      worker_step code (check_url_requests code env) = .errorCaught ∧
      ∀ u, worker_step code (check_url_requests code env) ≠ .enqueued u) := by
  constructor
  · intro r hr hv
    by_cases h1 : (is_valid_url env).valid
    · cases hfu : env.finalUrl with
      | error e =>
        have hc : (check_url_curl code env).ret
            = some (.five false code (some ("Error: " ++ e)) none none) := by
          simp [check_url_curl, h1, hfu]
        rw [hc] at hr
        injection hr with h
        subst h
        simp [CheckRet.validB] at hv
      | ok fu =>
        by_cases h2 : (patternScan fu).all_patterns_found
        · have hc : (check_url_curl code env).ret
              = some (.six true code (targetUrl code) fu
                (patternScan fu).found_patterns
                (extract_laddoo_type (unquoteStr fu))) := by
            simp [check_url_curl, h1, hfu, h2]
          rw [hc] at hr
          injection hr with h
          subst h
          refine ⟨rfl, worker_step_six _ _ _ _ _ _ _ _ hc, ?_⟩
          intro u hu
          rw [worker_step_six _ _ _ _ _ _ _ _ hc] at hu
          cases hu
        · have h2f : (patternScan fu).all_patterns_found = false := by
            simpa using h2
          have hc : (check_url_curl code env).ret
              = some (.five false code none (some fu) none) := by
            simp [check_url_curl, h1, hfu, h2f]
          rw [hc] at hr
          injection hr with h
          subst h
          simp [CheckRet.validB] at hv
    · have h1f : (is_valid_url env).valid = false := by simpa using h1
      have hc : (check_url_curl code env).ret
          = some (.five false code none none none) := by
        simp [check_url_curl, h1f]
      rw [hc] at hr
      injection hr with h
      subst h
      simp [CheckRet.validB] at hv
  · intro r hr hv
    by_cases h1 : (is_valid_url env).valid
    · cases hfu : env.finalUrl with
      | error e =>
        have hc : (check_url_requests code env).ret
            = some (.five false code (some ("Error: " ++ e)) none none) := by
          simp [check_url_requests, h1, hfu]
        rw [hc] at hr
        injection hr with h
        subst h
        simp [CheckRet.validB] at hv
      | ok fu =>
        by_cases h2 : (patternScan fu).all_patterns_found
        · have hc : (check_url_requests code env).ret
              = some (.six true code (targetUrl code) fu
                (patternScan fu).found_patterns
                (extract_laddoo_type (unquoteStr fu))) := by
            simp [check_url_requests, h1, hfu, h2]
          rw [hc] at hr
          injection hr with h
          subst h
          refine ⟨rfl, worker_step_six _ _ _ _ _ _ _ _ hc, ?_⟩
          intro u hu
          rw [worker_step_six _ _ _ _ _ _ _ _ hc] at hu
          cases hu
        · have h2f : (patternScan fu).all_patterns_found = false := by
            simpa using h2
          have hc : (check_url_requests code env).ret
              = some (.five false code none (some fu) none) := by
            simp [check_url_requests, h1, hfu, h2f]
          rw [hc] at hr
          injection hr with h
          subst h
          simp [CheckRet.validB] at hv
    · have h1f : (is_valid_url env).valid = false := by simpa using h1
      have hc : (check_url_requests code env).ret
          = some (.five false code none none none) := by
        simp [check_url_requests, h1f]
      rw [hc] at hr
      injection hr with h
      subst h
      simp [CheckRet.validB] at hv

/-- Witness for C4 on a resolved URL containing all three patterns. -/
theorem confirmed_match_never_reaches_queue_witness :
    (check_url_requests "abcdef"
        ⟨.ok 200,
         .ok "https://g.co/iplladdoo2025?socialTitle=Psst&n=Laddoo%2Bfor%2Byou"⟩).ret
      = some (.six true "abcdef" (targetUrl "abcdef")
          "https://g.co/iplladdoo2025?socialTitle=Psst&n=Laddoo%2Bfor%2Byou"
          LADDOO_PATTERNS "Other") ∧
    (CheckRet.six true "abcdef" (targetUrl "abcdef")
        "https://g.co/iplladdoo2025?socialTitle=Psst&n=Laddoo%2Bfor%2Byou"
        LADDOO_PATTERNS "Other").arity = 6 ∧
    worker_step "abcdef" (check_url_requests "abcdef"
        ⟨.ok 200,
         .ok "https://g.co/iplladdoo2025?socialTitle=Psst&n=Laddoo%2Bfor%2Byou"⟩)
      = .errorCaught :=
  ⟨by decide,
    ((confirmed_match_never_reaches_queue "abcdef"
        ⟨.ok 200,
         .ok "https://g.co/iplladdoo2025?socialTitle=Psst&n=Laddoo%2Bfor%2Byou"⟩).2
      (.six true "abcdef" (targetUrl "abcdef")
        "https://g.co/iplladdoo2025?socialTitle=Psst&n=Laddoo%2Bfor%2Byou"
        LADDOO_PATTERNS "Other") (by decide) (by decide)).1,
    ((confirmed_match_never_reaches_queue "abcdef"
        ⟨.ok 200,
         .ok "https://g.co/iplladdoo2025?socialTitle=Psst&n=Laddoo%2Bfor%2Byou"⟩).2
      (.six true "abcdef" (targetUrl "abcdef")
        "https://g.co/iplladdoo2025?socialTitle=Psst&n=Laddoo%2Bfor%2Byou"
        LADDOO_PATTERNS "Other") (by decide) (by decide)).2.1⟩

/-- Counterexample to C3: a run that first checks a code through the
single-code test prompt (which does not record the code in the seen-set)
and whose generator later produces the same code writes and notifies that
match key twice. -/
theorem match_key_written_twice :
    (runWrites ⟨∅, some "aaaaaa", ["aaaaaa"]⟩
        (fun _ => ⟨.ok 200,
          .ok "https://g.co/iplladdoo2025?socialTitle=Psst&n=Laddoo%2Bfor%2Byou"⟩)
        false).count (targetUrl "aaaaaa") = 2 ∧
    (runNotifies ⟨∅, some "aaaaaa", ["aaaaaa"]⟩
        (fun _ => ⟨.ok 200,
          .ok "https://g.co/iplladdoo2025?socialTitle=Psst&n=Laddoo%2Bfor%2Byou"⟩)
        false).count (targetUrl "aaaaaa") = 2 := by
  constructor <;> decide

/-- C3 as amended: in a run that skips the single-code test prompt, every
match key is written to the durable output at most once, and the
notification calls are exactly the writes. -/
theorem run_writes_at_most_once (r : RunInput) (env : String → NetEnv)
    (use_curl : Bool) (h : r.testedCode = none) :
    runNotifies r env use_curl = runWrites r env use_curl ∧
    ∀ k, (runWrites r env use_curl).count k ≤ 1 := by
  constructor
  · rfl
  · intro k
    have hq := (enqueueLoop_spec r.generated r.resumedSeen).1
    have hnd : ((enqueueLoop r.resumedSeen r.generated).filter
        (confirmsB env use_curl)).Nodup := hq.filter _
    have hmap : (((enqueueLoop r.resumedSeen r.generated).filter
        (confirmsB env use_curl)).map targetUrl).Nodup :=
      hnd.map targetUrl_injective
    rw [runWrites, h]
    simpa using List.nodup_iff_count_le_one.mp hmap k

/-- Witness for amended C3: even when the generator repeats a code, the key
is written at most once. -/
theorem run_writes_at_most_once_witness :
    (⟨∅, none, ["aaaaaa", "aaaaaa"]⟩ : RunInput).testedCode = none ∧
    (runWrites ⟨∅, none, ["aaaaaa", "aaaaaa"]⟩
        (fun _ => ⟨.ok 200,
          .ok "https://g.co/iplladdoo2025?socialTitle=Psst&n=Laddoo%2Bfor%2Byou"⟩)
        false).count (targetUrl "aaaaaa") ≤ 1 :=
  ⟨rfl,
    (run_writes_at_most_once ⟨∅, none, ["aaaaaa", "aaaaaa"]⟩
      (fun _ => ⟨.ok 200,
        .ok "https://g.co/iplladdoo2025?socialTitle=Psst&n=Laddoo%2Bfor%2Byou"⟩)
      false rfl).2 (targetUrl "aaaaaa")⟩

/-- Counterexample to C9: for a checkpoint storing two codes and counter 5,
`load_checkpoint` reports counter 5 but `main` initializes its in-memory
counter to 2, the size of the seen-set. -/
theorem startup_counter_is_not_saved_counter :
    (load_checkpoint
        (.valid ⟨some ["ab", "cd"], none, some 5, none, some 0⟩)).processed_count
      = 5 ∧
    (main_startup
        (.valid ⟨some ["ab", "cd"], none, some 5, none, some 0⟩)).2 = 2 ∧
    (main_startup
        (.valid ⟨some ["ab", "cd"], none, some 5, none, some 0⟩)).2 ≠
      (load_checkpoint
        (.valid ⟨some ["ab", "cd"], none, some 5, none, some 0⟩)).processed_count := by
  refine ⟨by decide, by decide, by decide⟩

/-- C9 as amended: startup rehydrates the seen-set from the checkpoint but
initializes the counter to the number of distinct loaded codes, discarding
the stored counter, which is recovered only when it equals that number. -/
theorem main_startup_counter_is_seen_card (l : List String) (n ts : Nat) :
    main_startup (save_checkpoint l n ts) = (l.toFinset, l.toFinset.card) ∧
    ((main_startup (save_checkpoint l n ts)).2 = n ↔ l.toFinset.card = n) := by
  have hcodes := load_save_codes l n ts
  constructor
  · rw [main_startup]
    rw [hcodes]
  · rw [main_startup]
    rw [hcodes]

/-- C10: the derived category is the first label of `LADDOO_TYPES` that is a
case-insensitive substring of the URL, and "Other" when none matches. -/
theorem extract_laddoo_type_first_match (url : String) :
    extract_laddoo_type url
      = ((LADDOO_TYPES.find?
          (fun t => substrB (strLower t) (strLower url))).getD "Other") := by
  rw [extract_laddoo_type, extractLoop_eq]
